import Mathlib

/-
Verification of the tcollector libvirt collectors.

Shallow embedding of `collectors/0/libvirt_vm.py` (namespace `LibvirtVm`)
and `collectors/0/libvirt.py` (namespace `Libvirt`).  External library
calls (libvirt, psutil, ps) are modelled as oracle fields of `World` and
`Domain`; Python numbers are modelled as rationals, Python dicts over
string keys as association lists with replace-or-append insertion.
-/

set_option autoImplicit false

namespace LibvirtVm

/-- The characters Python `str.strip()` removes. -/
def pyIsSpace (c : Char) : Bool :=
  c = ' ' || c = '\t' || c = '\n' || c = '\r' || c = '\x0b' || c = '\x0c'

/-- Python `str.strip()` on a character list. -/
def pyStripL (s : List Char) : List Char :=
  ((s.dropWhile pyIsSpace).reverse.dropWhile pyIsSpace).reverse

/-- Python `str.split("\n")`: split at every newline, keeping empty pieces. -/
def splitNl : List Char → List (List Char)
  | [] => [[]]
  | c :: rest =>
    if c = '\n' then [] :: splitNl rest
    else
      match splitNl rest with
      | [] => [[c]]
      | l :: ls => (c :: l) :: ls

/-- The regex character class `[a-z0-9]`. -/
def isUuidChar (c : Char) : Bool :=
  ('a' ≤ c && c ≤ 'z') || ('0' ≤ c && c ≤ '9')

/-- Match exactly `n` characters of the class `[a-z0-9]` at the head;
returns the matched group and the remaining input. -/
def matchClassN : Nat → List Char → Option (List Char × List Char)
  | 0, s => some ([], s)
  | _ + 1, [] => none
  | n + 1, c :: rest =>
    if isUuidChar c then
      (matchClassN n rest).map (fun p => (c :: p.1, p.2))
    else none

/-- Match a literal `-` at the head. -/
def matchDash : List Char → Option (List Char)
  | '-' :: rest => some rest
  | _ => none

/-- Match the UUID group `[a-z0-9]{8}-{4}-{4}-{4}-{12}` at the head of the
input, returning the 36 matched characters (regex group 1). -/
def matchUuidGroup (s : List Char) : Option (List Char) := do
  let (g1, s) ← matchClassN 8 s
  let s ← matchDash s
  let (g2, s) ← matchClassN 4 s
  let s ← matchDash s
  let (g3, s) ← matchClassN 4 s
  let s ← matchDash s
  let (g4, s) ← matchClassN 4 s
  let s ← matchDash s
  let (g5, _) ← matchClassN 12 s
  pure (g1 ++ '-' :: g2 ++ '-' :: g3 ++ '-' :: g4 ++ '-' :: g5)

/-- The literal part of the pattern `-uuid ([a-z0-9]{8}-...)`. -/
def uuidLit : List Char := "-uuid ".toList

/-- Try the whole pattern anchored at the current position. -/
def matchPatternAt (s : List Char) : Option (List Char) :=
  if uuidLit.isPrefixOf s then matchUuidGroup (s.drop uuidLit.length) else none

/-- `re.search`: leftmost match of the UUID pattern, returning group 1. -/
def uuidSearch : List Char → Option (List Char)
  | [] => none
  | c :: rest =>
    match matchPatternAt (c :: rest) with
    | some g => some g
    | none => uuidSearch rest

/-- Decimal digit value. -/
def digitVal (c : Char) : Option Nat :=
  if '0' ≤ c && c ≤ '9' then some (c.toNat - '0'.toNat) else none

/-- Accumulate decimal digits; fails at the first non-digit. -/
def digitsAux : List Char → Nat → Option Nat
  | [], acc => some acc
  | c :: rest, acc =>
    match digitVal c with
    | some d => digitsAux rest (acc * 10 + d)
    | none => none

/-- Value of a non-empty all-digit string. -/
def digitsVal : List Char → Option Nat
  | [] => none
  | ds => digitsAux ds 0

/-- Python `int()` on a string: optional surrounding whitespace, optional
sign, one or more decimal digits, nothing else. -/
def pyInt (s : List Char) : Option Int :=
  match pyStripL s with
  | '-' :: ds => (digitsVal ds).map (fun n => -(n : Int))
  | '+' :: ds => (digitsVal ds).map (fun n => (n : Int))
  | ds => (digitsVal ds).map (fun n => (n : Int))

/-- A Python dict from UUID strings to pids, as an association list in
insertion order. -/
abbrev PidMap := List (String × Int)

/-- Python dict assignment `m[k] = v`: replace in place, or append. -/
def dictInsert (m : PidMap) (k : String) (v : Int) : PidMap :=
  if m.any (fun p => p.1 == k) then
    m.map (fun p => if p.1 == k then (k, v) else p)
  else m ++ [(k, v)]

/-- Python dict lookup `m.get(k)`. -/
def dictGet (m : PidMap) (k : String) : Option Int :=
  (m.find? (fun p => p.1 == k)).map Prod.snd

/-- The loop body of `get_pids` over the ps output lines, with the dict
accumulator (`pids` in the source).  For each line: strip it, search for
the UUID pattern; on a match take `line.split(' ', 1)[0]` as the pid and
store `int(pid)` under the uuid, raising `LibvirtVmProcessingError` when
the parse fails. -/
def get_pids_fold : List (List Char) → PidMap → Except String PidMap
  | [], pids => .ok pids
  | line :: rest, pids =>
    let l := pyStripL line
    match uuidSearch l with
    | some g =>
      let pid := l.takeWhile (fun c => c ≠ ' ')
      match pyInt pid with
      | some n => get_pids_fold rest (dictInsert pids (String.mk (pyStripL g)) n)
      | none =>
        .error ("'" ++ String.mk pid ++ "' is not a valid PIDnumber")
    | none => get_pids_fold rest pids

/-! ## Constants of `libvirt_vm.py` -/

/-- `ERROR_CODE_DONT_RETRY = 13`: do not restart this collector. -/
def ERROR_CODE_DONT_RETRY : Int := 13

/-- `DATA_RETRIEVAL_WAIT = 0.3` seconds between the two data requests. -/
def DATA_RETRIEVAL_WAIT : ℚ := 3 / 10

/-! ## The data model

Counter values are rationals.  libvirt and psutil calls are oracle
fields; a `none` result of a stats oracle models a raised
`libvirt.libvirtError`.  The snapshot phase argument (0 before the
`time.sleep(DATA_RETRIEVAL_WAIT)`, 1 after it) models the time at which
the cumulative counters are read. -/

/-- One `<interface>` element of the domain's XML descriptor:
`interface.target["dev"]`, or `none` when the target or its `dev`
attribute is missing. -/
structure Iface where
  dev : Option String

/-- One `<disk>` element of the descriptor: `disk.target["dev"]`. -/
structure Disk where
  dev : Option String

/-- The fields of `BeautifulSoup(domain.XMLDesc())` the collector reads. -/
structure DomXml where
  interfaces : List Iface
  disks : List Disk
  /-- `xml.domain["type"]`; `none` when the tag or attribute is missing. -/
  domType : Option String

/-- The result tuple of `domain.blockStats(dev)` at the indices the code
reads: `[0]`, `[1]`, `[2]`, `[3]`, accumulated by the source into
`read_reqs`, `write_reqs`, `read_bytes`, `write_bytes` in that order. -/
structure BlockStats where
  s0 : ℚ
  s1 : ℚ
  s2 : ℚ
  s3 : ℚ

/-- A libvirt domain together with its per-phase counter oracles. -/
structure Domain where
  /-- `domain.name()`. -/
  name : String
  /-- `domain.UUIDString()`. -/
  uuid : String
  /-- `domain.isActive()` (1 = running). -/
  isActive : Int
  /-- `domain.memoryStats()["actual"]`. -/
  memActual : ℚ
  /-- `domain.memoryStats()["rss"]`. -/
  memRss : ℚ
  /-- `domain.maxMemory()`. -/
  maxMemory : ℚ
  /-- `domain.maxVcpus()`. -/
  maxVcpus : ℚ
  /-- The parsed XML descriptor. -/
  xml : DomXml
  /-- `domain.interfaceStats(dev)` at snapshot phase 0 or 1: the pair of
  indices `[0]` (netrx) and `[4]` (nettx); `none` = `libvirtError`. -/
  ifaceStats : Nat → String → Option (ℚ × ℚ)
  /-- `domain.blockStats(dev)` at snapshot phase 0 or 1. -/
  blockStats : Nat → String → Option BlockStats

/-- The process-wide oracles: psutil and the `ps` child process. -/
structure World where
  /-- `psutil.pid_exists(pid)`. -/
  pidExists : Int → Bool
  /-- `psutil.Process(pid).cpu_times()` (user, system). -/
  cpuTimes : Int → ℚ × ℚ
  /-- `psutil.Process(pid).cpu_percent(interval)`: psutil samples the
  process twice, `interval` seconds apart, inside this one call. -/
  cpuPercent : Int → ℚ → ℚ
  /-- Captured stdout of `ps -ewwo pid,command`. -/
  psOutput : List Char
  /-- What ps writes to its stderr.  The child is created with
  `stdout=subprocess.PIPE` only, so this stream is NOT captured: it
  passes through to the collector's own stderr and the program never
  reads it. -/
  psStderr : List Char

/-- `output, err = p1.communicate()`: since only stdout is piped,
`communicate()` returns `None` for `err` no matter what ps writes to
stderr. -/
def ps_communicate (w : World) : List Char × Option (List Char) :=
  (w.psOutput, none)

/-- `get_pids` from `libvirt_vm.py`: run ps, take `(output, err)` from
`communicate()`, raise `LibvirtVmProcessingError` on a truthy `err`
(dead code: `err` is always `None`, see `ps_communicate`), then strip
the output, split it into lines and fold. -/
def get_pids (w : World) : Except String PidMap :=
  match (ps_communicate w).2 with
  | some _ => .error "Cannot read PIDs from ps. Stopping."
  | none => get_pids_fold (splitNl (pyStripL (ps_communicate w).1)) []

/-! ## Per-domain samplers -/

/-- `get_cpu_time`: sum of the first two fields of `cpu_times()` (the
psutil version branch selects only the method name). -/
def get_cpu_time (w : World) (pid : Int) : ℚ :=
  (w.cpuTimes pid).1 + (w.cpuTimes pid).2

/-- `get_cpu_load`: one `cpu_percent(DATA_RETRIEVAL_WAIT)` call for this
pid (the psutil version branch selects only the method name). -/
def get_cpu_load (w : World) (pid : Int) : ℚ :=
  w.cpuPercent pid DATA_RETRIEVAL_WAIT

/-- `get_memory`: `max([mem["actual"], mem["rss"]])`. -/
def get_memory (d : Domain) : ℚ :=
  max d.memActual d.memRss

/-- `get_per_sec_data(first_data, second_data)`:
`map(lambda data: (data[1] - data[0])/DATA_RETRIEVAL_WAIT, zip(first_data, second_data))`. -/
def get_per_sec_data (first_data second_data : List ℚ) : List ℚ :=
  (first_data.zip second_data).map
    (fun data => (data.2 - data.1) / DATA_RETRIEVAL_WAIT)

/-- `get_type`: `xml.domain["type"]`, raising `LibvirtVmDataError` when
the tag or attribute is missing. -/
def get_type (d : Domain) : Except String String :=
  match d.xml.domType with
  | none => .error ("Cannot read type for domain " ++ d.name ++ ". Skipping")
  | some t => .ok t

/-- The accumulation loop of `get_network_data` (accumulators `netrx`,
`nettx`); raises `LibvirtVmDataError` on a missing device name or a
failed `interfaceStats` call. -/
def net_loop (stats : String → Option (ℚ × ℚ)) (dname : String) :
    List Iface → ℚ → ℚ → Except String (ℚ × ℚ)
  | [], netrx, nettx => .ok (netrx, nettx)
  | i :: rest, netrx, nettx =>
    match i.dev with
    | none =>
      .error ("Cannot read interface name for domain " ++ dname ++ ". Skipping")
    | some dv =>
      match stats dv with
      | none =>
        .error ("Cannot read interface statisticsfor domain " ++ dname ++ ". Skipping")
      | some (rx, tx) => net_loop stats dname rest (netrx + rx) (nettx + tx)

/-- `get_network_data(interfaces, domain)` at one snapshot phase. -/
def get_network_data (interfaces : List Iface) (stats : String → Option (ℚ × ℚ))
    (dname : String) : Except String (ℚ × ℚ) :=
  net_loop stats dname interfaces 0 0

/-- The dict returned by `get_network_traffic`. -/
structure NetTraffic where
  net_rx : ℚ
  net_tx : ℚ
  net_current_rx : ℚ
  net_current_tx : ℚ

/-- `get_network_traffic`: first snapshot, `time.sleep(DATA_RETRIEVAL_WAIT)`
(phase change), second snapshot, per-second deltas; totals from the
second snapshot. -/
def get_network_traffic (d : Domain) : Except String NetTraffic :=
  match get_network_data d.xml.interfaces (d.ifaceStats 0) d.name with
  | .error e => .error e
  | .ok first_data =>
    match get_network_data d.xml.interfaces (d.ifaceStats 1) d.name with
    | .error e => .error e
    | .ok second_data =>
      let data_per_sec := get_per_sec_data [first_data.1, first_data.2]
        [second_data.1, second_data.2]
      .ok { net_rx := second_data.1
            net_tx := second_data.2
            net_current_rx := data_per_sec.getD 0 0
            net_current_tx := data_per_sec.getD 1 0 }

/-- The accumulation loop of `get_disk_data` (accumulators `read_reqs`,
`write_reqs`, `read_bytes`, `write_bytes`). -/
def disk_loop (stats : String → Option BlockStats) (dname : String) :
    List Disk → ℚ → ℚ → ℚ → ℚ → Except String (ℚ × ℚ × ℚ × ℚ)
  | [], rr, wr, rb, wb => .ok (rr, wr, rb, wb)
  | disk :: rest, rr, wr, rb, wb =>
    match disk.dev with
    | none =>
      .error ("Cannot read disk name for domain " ++ dname ++ ". Skipping")
    | some dv =>
      match stats dv with
      | none =>
        .error ("Cannot read interface statisticsfor domain " ++ dname ++ ". Skipping")
      | some b => disk_loop stats dname rest (rr + b.s0) (wr + b.s1) (rb + b.s2) (wb + b.s3)

/-- `get_disk_data(disks, domain)` at one snapshot phase. -/
def get_disk_data (disks : List Disk) (stats : String → Option BlockStats)
    (dname : String) : Except String (ℚ × ℚ × ℚ × ℚ) :=
  disk_loop stats dname disks 0 0 0 0

/-- The dict returned by `get_disk_io`. -/
structure DiskIo where
  disk_read_reqs : ℚ
  disk_write_reqs : ℚ
  disk_total_reqs : ℚ
  disk_read_bytes : ℚ
  disk_write_bytes : ℚ
  disk_total_bytes : ℚ
  disk_current_read_reqs : ℚ
  disk_current_write_reqs : ℚ
  disk_current_total_reqs : ℚ
  disk_current_read_bytes : ℚ
  disk_current_write_bytes : ℚ
  disk_current_total_bytes : ℚ

/-- `get_disk_io`: two snapshots separated by the fixed wait, per-second
deltas, totals from the second snapshot. -/
def get_disk_io (d : Domain) : Except String DiskIo :=
  match get_disk_data d.xml.disks (d.blockStats 0) d.name with
  | .error e => .error e
  | .ok f =>
    match get_disk_data d.xml.disks (d.blockStats 1) d.name with
    | .error e => .error e
    | .ok s =>
      let per := get_per_sec_data [f.1, f.2.1, f.2.2.1, f.2.2.2]
        [s.1, s.2.1, s.2.2.1, s.2.2.2]
      .ok { disk_read_reqs := s.1
            disk_write_reqs := s.2.1
            disk_total_reqs := s.1 + s.2.1
            disk_read_bytes := s.2.2.1
            disk_write_bytes := s.2.2.2
            disk_total_bytes := s.2.2.1 + s.2.2.2
            disk_current_read_reqs := per.getD 0 0
            disk_current_write_reqs := per.getD 1 0
            disk_current_total_reqs := per.getD 0 0 + per.getD 1 0
            disk_current_read_bytes := per.getD 2 0
            disk_current_write_bytes := per.getD 3 0
            disk_current_total_bytes := per.getD 2 0 + per.getD 3 0 }

/-- The `vm` dict built by `process_domain`, with the metric keys as
fields (`deploy_id` and `type` are the tag entries). -/
structure VmRecord where
  cpu_time : ℚ
  cpu_load : ℚ
  memory : ℚ
  max_memory : ℚ
  max_vcpus : ℚ
  deploy_id : String
  domType : String
  net : NetTraffic
  disk : DiskIo

/-- The body of the `try` block of `process_domain`, in source order;
a `LibvirtVmDataError` anywhere discards the whole record. -/
def build_vm (w : World) (d : Domain) (p : Int) : Except String VmRecord :=
  match get_type d with
  | .error e => .error e
  | .ok ty =>
    match get_network_traffic d with
    | .error e => .error e
    | .ok net =>
      match get_disk_io d with
      | .error e => .error e
      | .ok disk =>
        .ok { cpu_time := get_cpu_time w p
              cpu_load := get_cpu_load w p
              memory := get_memory d
              max_memory := d.maxMemory
              max_vcpus := d.maxVcpus
              deploy_id := d.name
              domType := ty
              net := net
              disk := disk }

/-- The outcome of `process_domain`: `skip msg` is `utils.err(msg)`
followed by `return False` (nothing printed for the domain), `emit vm`
is `print_vm(vm)` followed by `return True`. -/
inductive PDResult where
  | skip (warning : String)
  | emit (vm : VmRecord)

/-- Whether a `PDResult` emitted a record. -/
def PDResult.isEmit : PDResult → Bool
  | .skip _ => false
  | .emit _ => true

/-- `process_domain(domain, pid)`.  `pid` is `pids.get(uuid)`; Python's
`if not pid` treats both `None` and `0` as missing. -/
def process_domain (w : World) (d : Domain) (pid : Option Int) : PDResult :=
  if d.isActive ≠ 1 then
    .skip ("Domain " ++ d.name ++ " is inactive. Skipping.")
  else
    match pid with
    | none => .skip ("Cannot find PID for domain " ++ d.name ++ ". Skipping.")
    | some p =>
      if p = 0 then
        .skip ("Cannot find PID for domain " ++ d.name ++ ". Skipping.")
      else if ¬ w.pidExists p then
        .skip ("PID no longer exists for domain " ++ d.name ++ ". Skipping.")
      else
        match build_vm w d p with
        | .error e => .skip e
        | .ok vm => .emit vm

/-! ## One sampling cycle and the main loop -/

/-- The inputs one pass of the `while True` loop reads: the shuffled
`conn.listAllDomains()` result and the process-wide oracles. -/
structure Cycle where
  world : World
  domains : List Domain

/-- What one completed cycle prints: the `print_vm` records in domain
order, and the value of the final `libvirt.vm.count` line. -/
structure CycleOutput where
  records : List VmRecord
  count : Nat

/-- `pids.get(domain.UUIDString())`. -/
def pid_of (m : PidMap) (d : Domain) : Option Int :=
  dictGet m d.uuid

/-- The body of the `for domain in domains` loop: accumulate the printed
records and the `count` of successfully processed VMs. -/
def cycle_step (w : World) (m : PidMap) (acc : List VmRecord × Nat) (d : Domain) :
    List VmRecord × Nat :=
  match process_domain w d (pid_of m d) with
  | .emit vm => (acc.1 ++ [vm], acc.2 + 1)
  | .skip _ => acc

/-- One pass of the main loop: `get_pids` (a `LibvirtVmProcessingError`
propagates out), then every domain, then the count line. -/
def run_cycle (c : Cycle) : Except String CycleOutput :=
  match get_pids c.world with
  | .error e => .error e
  | .ok pids =>
    let r := c.domains.foldl (cycle_step c.world pids) ([], 0)
    .ok { records := r.1, count := r.2 }

/-- The `while True` loop of `main`, observed for a finite prefix of
cycles; exit code `none` means the loop is still running. -/
def main_loop : List Cycle → List CycleOutput → List CycleOutput × Option Int
  | [], acc => (acc, none)
  | c :: rest, acc =>
    match run_cycle c with
    | .error _ => (acc, some ERROR_CODE_DONT_RETRY)
    | .ok out => main_loop rest (acc ++ [out])

/-- `main()`: `check_imports` (each missing module raises a
`LibvirtVmProcessingError`, caught at the bottom of `main` which then
returns `ERROR_CODE_DONT_RETRY`), the initial `libvirt.openReadOnly`
(`None` returns `ERROR_CODE_DONT_RETRY` before any cycle runs), then the
cycle loop. -/
def libvirt_vm_main (libvirtOk bs4Ok psutilOk connOk : Bool)
    (cycles : List Cycle) : List CycleOutput × Option Int :=
  if ¬ (libvirtOk && bs4Ok && psutilOk) then ([], some ERROR_CODE_DONT_RETRY)
  else if ¬ connOk then ([], some ERROR_CODE_DONT_RETRY)
  else main_loop cycles []

/-! ## Pipeline stages of a cycle -/

/-- Python truthiness of `pids.get(uuid)`: `None` and `0` are falsy. -/
def pidTruthy : Option Int → Bool
  | none => false
  | some p => p != 0

/-- Whether an `Except` result is a success. -/
def exceptOk {ε α : Type _} : Except ε α → Bool
  | .ok _ => true
  | .error _ => false

/-- Stage 2 of the pipeline: the active domains. -/
def stage_active (doms : List Domain) : List Domain :=
  doms.filter (fun d => d.isActive == 1)

/-- Stage 3: active domains whose UUID resolved to a (truthy) pid. -/
def stage_correlated (m : PidMap) (doms : List Domain) : List Domain :=
  (stage_active doms).filter (fun d => pidTruthy (pid_of m d))

/-- Whether the counter-sampling step succeeds for a resolved pid: the
pid still exists and the `try` block raises no `LibvirtVmDataError`. -/
def sampling_ok (w : World) (d : Domain) : Option Int → Bool
  | none => false
  | some p => w.pidExists p && exceptOk (build_vm w d p)

/-- Stage 4: correlated domains that were successfully sampled. -/
def stage_sampled (w : World) (m : PidMap) (doms : List Domain) : List Domain :=
  (stage_correlated m doms).filter (fun d => sampling_ok w d (pid_of m d))

/-- Stage 5: domains for which `print_vm` ran. -/
def emitted_domains (w : World) (m : PidMap) (doms : List Domain) : List Domain :=
  doms.filter (fun d => (process_domain w d (pid_of m d)).isEmit)

/-- The `cpu_percent` invocations `process_domain` makes, as (pid, wait)
argument pairs: the three guards decide whether the `try` block runs,
and `build_vm`'s second step always calls `get_cpu_load` (no failure
point precedes it); each invocation passes a single pid. -/
def load_sampler_invocations (w : World) (d : Domain) (pid : Option Int) :
    List (Int × ℚ) :=
  if d.isActive ≠ 1 then []
  else
    match pid with
    | none => []
    | some p =>
      if p = 0 then []
      else if ¬ w.pidExists p then []
      else [(p, DATA_RETRIEVAL_WAIT)]

/-- All `cpu_percent` invocations one cycle makes, in domain order. -/
def cycle_load_invocations (w : World) (m : PidMap) (doms : List Domain) :
    List (Int × ℚ) :=
  doms.flatMap (fun d => load_sampler_invocations w d (pid_of m d))

end LibvirtVm

namespace Libvirt

/-! Embedding of the batch variant `collectors/0/libvirt.py`. -/

/-- `BATCH_SIZE = 20`. -/
def BATCH_SIZE : Nat := 20

/-- `chunker(seq, size)`:
`(seq[pos:pos + size] for pos in xrange(0, len(seq), size))`. -/
def chunker {α : Type _} (seq : List α) (size : Nat) : List (List α) :=
  (List.range ((seq.length + size - 1) / size)).map
    (fun i => (seq.drop (i * size)).take size)

/-- The fields of a domain that `libvirt.py`'s `get_memory` reads. -/
structure LDomain where
  name : String
  /-- `domain.isActive()`. -/
  isActive : Int
  /-- `domain.memoryStats()["actual"]`. -/
  memActual : ℚ
  /-- `domain.memoryStats()["rss"]`. -/
  memRss : ℚ
  /-- `xml.memory.getText()`. -/
  xmlMemoryText : List Char

/-- `get_memory` of `libvirt.py`: the larger of the two readings for an
active domain, the XML template value otherwise (a failed `int()` parse
raises `LibvirtCollectorError`). -/
def get_memory (d : LDomain) : Except String ℚ :=
  if d.isActive = 1 then .ok (max d.memActual d.memRss)
  else
    match LibvirtVm.pyInt d.xmlMemoryText with
    | some n => .ok (n : ℚ)
    | none => .error ("Cannot read memory for domain " ++ d.name ++ ". Skipping")

/-- The key order `sorted(vms.items())` uses: Python compares the tuples
lexicographically, and the dict keys (pid strings) are unique, so only
the first components ever compare. -/
def keyLe {α : Type _} (a b : String × α) : Prop := a.1 ≤ b.1

instance {α : Type _} : DecidableRel (keyLe (α := α)) :=
  fun a b => inferInstanceAs (Decidable (a.1 ≤ b.1))

/-- `collections.OrderedDict(sorted(vms.items()))`: the items in sorted
key order (Python's sort is stable; `insertionSort` is the matching
stable sort). -/
def ordered_items {α : Type _} (vms : List (String × α)) : List (String × α) :=
  List.insertionSort keyLe vms

/-- `pids = ','.join(ordered_vms.keys())`. -/
def joined_pids {α : Type _} (vms : List (String × α)) : String :=
  String.intercalate "," ((ordered_items vms).map Prod.fst)

/-- Modelled from the spec: the Bulk Load Sampler call itself is missing
from `src` (`libvirt.py` builds the comma-joined pid string and `main`
ends before any tool call).  Per the spec it is "one external-tool
invocation per batch, given the comma-joined, order-fixed pid list". -/
def bulk_load_invocations {α : Type _} (vms : List (String × α)) : List String :=
  [joined_pids vms]

end Libvirt

/-! ## Helper lemmas -/

namespace Libvirt

theorem chunker_eq_nil_iff {α : Type _} (seq : List α) :
    chunker seq BATCH_SIZE = [] ↔ seq = [] := by
  unfold chunker BATCH_SIZE
  constructor
  · intro h
    have hlen := congrArg List.length h
    simp only [List.length_map, List.length_range, List.length_nil] at hlen
    cases seq with
    | nil => rfl
    | cons a t =>
      exfalso
      simp only [List.length_cons] at hlen
      omega
  · intro h
    subst h
    simp

theorem chunker_step {α : Type _} (seq : List α) (h : seq ≠ []) :
    chunker seq BATCH_SIZE =
      seq.take BATCH_SIZE :: chunker (seq.drop BATCH_SIZE) BATCH_SIZE := by
  have hn : 0 < seq.length := List.length_pos.mpr h
  unfold chunker BATCH_SIZE
  have hcount : (seq.length + 20 - 1) / 20 =
      ((seq.drop 20).length + 20 - 1) / 20 + 1 := by
    simp only [List.length_drop]
    omega
  rw [hcount, List.range_succ_eq_map, List.map_cons, List.map_map]
  refine congrArg₂ _ (by simp) ?_
  refine List.map_congr_left ?_
  intro i _
  simp [Function.comp, List.drop_drop, Nat.succ_mul, Nat.add_comm]

theorem chunker_flatten {α : Type _} :
    ∀ seq : List α, (chunker seq BATCH_SIZE).flatten = seq
  | seq => by
    show (chunker seq BATCH_SIZE).flatten = seq
    by_cases h : seq = []
    · rw [h, (chunker_eq_nil_iff _).mpr rfl]
      rfl
    · rw [chunker_step seq h, List.flatten_cons,
        chunker_flatten (seq.drop BATCH_SIZE), List.take_append_drop]
  termination_by seq => seq.length
  decreasing_by
    have h2 : 0 < seq.length := List.length_pos.mpr h
    show (seq.drop BATCH_SIZE).length < seq.length
    simp only [List.length_drop, BATCH_SIZE]
    omega

theorem chunker_mem_length {α : Type _} :
    ∀ seq : List α, ∀ c ∈ chunker seq BATCH_SIZE,
      1 ≤ c.length ∧ c.length ≤ BATCH_SIZE
  | seq => by
    show ∀ c ∈ chunker seq BATCH_SIZE, 1 ≤ c.length ∧ c.length ≤ BATCH_SIZE
    by_cases h : seq = []
    · intro c hc
      rw [h, (chunker_eq_nil_iff _).mpr rfl] at hc
      simp at hc
    · rw [chunker_step seq h]
      intro c hc
      rcases List.mem_cons.mp hc with rfl | hc
      · have hn : 0 < seq.length := List.length_pos.mpr h
        constructor
        · simpa [BATCH_SIZE] using hn
        · simp [BATCH_SIZE]
      · exact chunker_mem_length (seq.drop BATCH_SIZE) c hc
  termination_by seq => seq.length
  decreasing_by
    have h2 : 0 < seq.length := List.length_pos.mpr h
    show (seq.drop BATCH_SIZE).length < seq.length
    simp only [List.length_drop, BATCH_SIZE]
    omega

theorem chunker_dropLast_length {α : Type _} :
    ∀ seq : List α, ∀ c ∈ (chunker seq BATCH_SIZE).dropLast,
      c.length = BATCH_SIZE
  | seq => by
    show ∀ c ∈ (chunker seq BATCH_SIZE).dropLast, c.length = BATCH_SIZE
    by_cases h : seq = []
    · intro c hc
      rw [h, (chunker_eq_nil_iff _).mpr rfl] at hc
      simp at hc
    · rw [chunker_step seq h]
      intro c hc
      by_cases hrest : chunker (seq.drop BATCH_SIZE) BATCH_SIZE = []
      · rw [hrest] at hc
        simp at hc
      · rw [List.dropLast_cons_of_ne_nil hrest] at hc
        rcases List.mem_cons.mp hc with rfl | hc
        · have hd : seq.drop BATCH_SIZE ≠ [] :=
            fun hd => hrest ((chunker_eq_nil_iff _).mpr hd)
          have : BATCH_SIZE < seq.length := by
            by_contra hle
            exact hd (List.drop_eq_nil_of_le (by omega))
          simp [BATCH_SIZE] at this ⊢
          omega
        · exact chunker_dropLast_length (seq.drop BATCH_SIZE) c hc
  termination_by seq => seq.length
  decreasing_by
    have h2 : 0 < seq.length := List.length_pos.mpr h
    show (seq.drop BATCH_SIZE).length < seq.length
    simp only [List.length_drop, BATCH_SIZE]
    omega

end Libvirt

namespace LibvirtVm

/-- Full characterization of a successful `build_vm`. -/
theorem build_vm_ok_iff (w : World) (d : Domain) (p : Int) (vm : VmRecord) :
    build_vm w d p = .ok vm ↔
      ∃ ty net disk, get_type d = .ok ty ∧ get_network_traffic d = .ok net ∧
        get_disk_io d = .ok disk ∧
        vm = { cpu_time := get_cpu_time w p
               cpu_load := get_cpu_load w p
               memory := get_memory d
               max_memory := d.maxMemory
               max_vcpus := d.maxVcpus
               deploy_id := d.name
               domType := ty
               net := net
               disk := disk } := by
  unfold build_vm
  cases hty : get_type d <;> cases hnet : get_network_traffic d <;>
    cases hdisk : get_disk_io d <;>
    simp [Except.bind, eq_comm]

/-- `process_domain` emits iff the three guards pass and `build_vm`
succeeds. -/
theorem process_domain_emit_iff (w : World) (d : Domain) (pid : Option Int)
    (vm : VmRecord) :
    process_domain w d pid = .emit vm ↔
      d.isActive = 1 ∧ ∃ p, pid = some p ∧ p ≠ 0 ∧ w.pidExists p = true ∧
        build_vm w d p = .ok vm := by
  unfold process_domain
  by_cases ha : d.isActive = 1
  · cases pid with
    | none => simp [ha]
    | some p =>
      by_cases hp : p = 0
      · simp [ha, hp]
      · by_cases he : w.pidExists p
        · cases hb : build_vm w d p <;> simp_all
        · simp_all
  · simp [ha]

/-- The Boolean form: an emitted record means active, truthy pid, and a
successful sampling step. -/
theorem isEmit_eq (w : World) (d : Domain) (pid : Option Int) :
    (process_domain w d pid).isEmit =
      ((d.isActive == 1) && pidTruthy pid && sampling_ok w d pid) := by
  unfold process_domain pidTruthy sampling_ok PDResult.isEmit
  by_cases ha : d.isActive = 1
  · cases pid with
    | none => simp [ha]
    | some p =>
      by_cases hp : p = 0
      · simp [ha, hp]
      · by_cases he : w.pidExists p
        · cases hb : build_vm w d p <;> simp_all [exceptOk]
        · simp_all
  · simp [ha]

end LibvirtVm

namespace Libvirt

instance {α : Type _} : IsTotal (String × α) keyLe :=
  ⟨fun a b => le_total a.1 b.1⟩

instance {α : Type _} : IsTrans (String × α) keyLe :=
  ⟨fun _ _ _ h1 h2 => le_trans h1 h2⟩

theorem ordered_items_sorted {α : Type _} (vms : List (String × α)) :
    List.Sorted keyLe (ordered_items vms) :=
  List.sorted_insertionSort keyLe vms

/-- An active example domain for the batch variant. -/
def exLDomain : LDomain :=
  { name := "one-42"
    isActive := 1
    memActual := 512000
    memRss := 600000
    xmlMemoryText := "1048576".toList }

end Libvirt

namespace LibvirtVm

/-! ## Concrete example values (used by witnesses) -/

/-- Interface counters of the example domain: Scenario 1 of the spec,
two interfaces with rx = (100, 200), tx = (10, 20) before the wait and
rx = (110, 215), tx = (12, 25) after it. -/
def exIfaceStats : Nat → String → Option (ℚ × ℚ) := fun ph dv =>
  if dv = "eth0" then some (if ph = 0 then (100, 10) else (110, 12))
  else if dv = "eth1" then some (if ph = 0 then (200, 20) else (215, 25))
  else none

/-- Disk counters of the example domain. -/
def exBlockStats : Nat → String → Option BlockStats := fun ph dv =>
  if dv = "vda" then
    some (if ph = 0 then ⟨4, 6, 1000, 2000⟩ else ⟨10, 12, 1600, 2900⟩)
  else none

/-- An active example domain with complete descriptor data. -/
def exDomain : Domain :=
  { name := "one-42"
    uuid := "aaaaaaaa-bbbb-cccc-dddd-eeeeeeeeeeee"
    isActive := 1
    memActual := 512000
    memRss := 600000
    maxMemory := 1048576
    maxVcpus := 2
    xml := { interfaces := [⟨some "eth0"⟩, ⟨some "eth1"⟩]
             disks := [⟨some "vda"⟩]
             domType := some "kvm" }
    ifaceStats := exIfaceStats
    blockStats := exBlockStats }

/-- A second active example domain (pid 77). -/
def exDomain2 : Domain :=
  { exDomain with
    name := "one-77"
    uuid := "ffffffff-bbbb-cccc-dddd-eeeeeeeeeeee" }

/-- Example oracles: pids 42 and 77 exist. -/
def exWorld : World :=
  { pidExists := fun p => p == 42 || p == 77
    cpuTimes := fun _ => (5, 7)
    cpuPercent := fun _ _ => 55
    psOutput :=
      (" 42 qemu-kvm -uuid aaaaaaaa-bbbb-cccc-dddd-eeeeeeeeeeee\n"
        ++ " 77 qemu-kvm -uuid ffffffff-bbbb-cccc-dddd-eeeeeeeeeeee").toList
    psStderr := [] }

/-- The pid map for the two example domains. -/
def exPids : PidMap :=
  [("aaaaaaaa-bbbb-cccc-dddd-eeeeeeeeeeee", 42),
   ("ffffffff-bbbb-cccc-dddd-eeeeeeeeeeee", 77)]

/-- The record `process_domain` emits for `exDomain` with pid 42. -/
def exVm : VmRecord :=
  { cpu_time := 12
    cpu_load := 55
    memory := 600000
    max_memory := 1048576
    max_vcpus := 2
    deploy_id := "one-42"
    domType := "kvm"
    net := { net_rx := 325
             net_tx := 37
             net_current_rx := (325 - 300) / DATA_RETRIEVAL_WAIT
             net_current_tx := (37 - 30) / DATA_RETRIEVAL_WAIT }
    disk := { disk_read_reqs := 10
              disk_write_reqs := 12
              disk_total_reqs := 10 + 12
              disk_read_bytes := 1600
              disk_write_bytes := 2900
              disk_total_bytes := 1600 + 2900
              disk_current_read_reqs := (10 - 4) / DATA_RETRIEVAL_WAIT
              disk_current_write_reqs := (12 - 6) / DATA_RETRIEVAL_WAIT
              disk_current_total_reqs :=
                (10 - 4) / DATA_RETRIEVAL_WAIT + (12 - 6) / DATA_RETRIEVAL_WAIT
              disk_current_read_bytes := (1600 - 1000) / DATA_RETRIEVAL_WAIT
              disk_current_write_bytes := (2900 - 2000) / DATA_RETRIEVAL_WAIT
              disk_current_total_bytes :=
                (1600 - 1000) / DATA_RETRIEVAL_WAIT +
                  (2900 - 2000) / DATA_RETRIEVAL_WAIT } }

end LibvirtVm

/-! ## Claims -/

namespace LibvirtVm

/-- **C1.** For every domain sampled in a cycle, the two counter snapshots
A and B are separated by the fixed wait `DATA_RETRIEVAL_WAIT` (the
`time.sleep` between the two phase reads); every `current` (rate) metric
for every network and disk counter equals `(B − A) / W` exactly, and
every `total` metric reports B's (the later snapshot's) cumulative summed
value, never A's. -/
theorem C1_two_sample_rates (d : Domain) (a1 a2 b1 b2 : ℚ)
    (fa : ℚ × ℚ × ℚ × ℚ) (sb : ℚ × ℚ × ℚ × ℚ)
    (hnetA : get_network_data d.xml.interfaces (d.ifaceStats 0) d.name = .ok (a1, a2))
    (hnetB : get_network_data d.xml.interfaces (d.ifaceStats 1) d.name = .ok (b1, b2))
    (hdiskA : get_disk_data d.xml.disks (d.blockStats 0) d.name = .ok fa)
    (hdiskB : get_disk_data d.xml.disks (d.blockStats 1) d.name = .ok sb) :
    get_network_traffic d = .ok
      { net_rx := b1
        net_tx := b2
        net_current_rx := (b1 - a1) / DATA_RETRIEVAL_WAIT
        net_current_tx := (b2 - a2) / DATA_RETRIEVAL_WAIT } ∧
    get_disk_io d = .ok
      { disk_read_reqs := sb.1
        disk_write_reqs := sb.2.1
        disk_total_reqs := sb.1 + sb.2.1
        disk_read_bytes := sb.2.2.1
        disk_write_bytes := sb.2.2.2
        disk_total_bytes := sb.2.2.1 + sb.2.2.2
        disk_current_read_reqs := (sb.1 - fa.1) / DATA_RETRIEVAL_WAIT
        disk_current_write_reqs := (sb.2.1 - fa.2.1) / DATA_RETRIEVAL_WAIT
        disk_current_total_reqs :=
          (sb.1 - fa.1) / DATA_RETRIEVAL_WAIT + (sb.2.1 - fa.2.1) / DATA_RETRIEVAL_WAIT
        disk_current_read_bytes := (sb.2.2.1 - fa.2.2.1) / DATA_RETRIEVAL_WAIT
        disk_current_write_bytes := (sb.2.2.2 - fa.2.2.2) / DATA_RETRIEVAL_WAIT
        disk_current_total_bytes :=
          (sb.2.2.1 - fa.2.2.1) / DATA_RETRIEVAL_WAIT +
            (sb.2.2.2 - fa.2.2.2) / DATA_RETRIEVAL_WAIT } := by
  constructor
  · simp [get_network_traffic, hnetA, hnetB, get_per_sec_data, Except.bind]
  · simp [get_disk_io, hdiskA, hdiskB, get_per_sec_data, Except.bind]

end LibvirtVm

namespace LibvirtVm

/-- The two network snapshots of the example domain. -/
theorem exNetA : get_network_data exDomain.xml.interfaces (exDomain.ifaceStats 0)
    exDomain.name = .ok (300, 30) := by
  simp +decide [get_network_data, net_loop, exDomain, exIfaceStats]
  norm_num

theorem exNetB : get_network_data exDomain.xml.interfaces (exDomain.ifaceStats 1)
    exDomain.name = .ok (325, 37) := by
  simp +decide [get_network_data, net_loop, exDomain, exIfaceStats]
  norm_num

/-- The two disk snapshots of the example domain. -/
theorem exDiskA : get_disk_data exDomain.xml.disks (exDomain.blockStats 0)
    exDomain.name = .ok (4, 6, 1000, 2000) := by
  simp +decide [get_disk_data, disk_loop, exDomain, exBlockStats]

theorem exDiskB : get_disk_data exDomain.xml.disks (exDomain.blockStats 1)
    exDomain.name = .ok (10, 12, 1600, 2900) := by
  simp +decide [get_disk_data, disk_loop, exDomain, exBlockStats]

/-- The example domain is fully processed and emits `exVm`. -/
theorem ex_process_emit : process_domain exWorld exDomain (some 42) = .emit exVm := by
  simp +decide [process_domain, build_vm, get_type, get_network_traffic, get_disk_io,
    get_network_data, net_loop, get_disk_data, disk_loop, get_per_sec_data,
    get_cpu_time, get_cpu_load, get_memory, exWorld, exDomain, exIfaceStats,
    exBlockStats, exVm, DATA_RETRIEVAL_WAIT]
  norm_num

/-- Witness for C1 at the Scenario-1 numbers: rx = (100, 200), tx = (10, 20)
at snapshot A, rx = (110, 215), tx = (12, 25) at snapshot B. -/
theorem C1_two_sample_rates_witness :
    get_network_traffic exDomain = .ok
      { net_rx := 325
        net_tx := 37
        net_current_rx := (325 - 300) / DATA_RETRIEVAL_WAIT
        net_current_tx := (37 - 30) / DATA_RETRIEVAL_WAIT } ∧
    get_disk_io exDomain = .ok
      { disk_read_reqs := 10
        disk_write_reqs := 12
        disk_total_reqs := 10 + 12
        disk_read_bytes := 1600
        disk_write_bytes := 2900
        disk_total_bytes := 1600 + 2900
        disk_current_read_reqs := (10 - 4) / DATA_RETRIEVAL_WAIT
        disk_current_write_reqs := (12 - 6) / DATA_RETRIEVAL_WAIT
        disk_current_total_reqs :=
          (10 - 4) / DATA_RETRIEVAL_WAIT + (12 - 6) / DATA_RETRIEVAL_WAIT
        disk_current_read_bytes := (1600 - 1000) / DATA_RETRIEVAL_WAIT
        disk_current_write_bytes := (2900 - 2000) / DATA_RETRIEVAL_WAIT
        disk_current_total_bytes :=
          (1600 - 1000) / DATA_RETRIEVAL_WAIT +
            (2900 - 2000) / DATA_RETRIEVAL_WAIT } :=
  C1_two_sample_rates exDomain 300 30 325 37 (4, 6, 1000, 2000)
    (10, 12, 1600, 2900) exNetA exNetB exDiskA exDiskB

/-- **C7.** For every active domain, the reported memory metric equals the
maximum of the two independently-sourced readings: the hypervisor-reported
`actual` value and the OS-reported resident-set `rss` value (in both
`libvirt_vm.py`, whose pipeline only reaches `get_memory` for active
domains, and in `libvirt.py`'s active branch). -/
theorem C7_memory_max :
    (∀ d : Domain, get_memory d = max d.memActual d.memRss) ∧
    (∀ (w : World) (d : Domain) (pid : Option Int) (vm : VmRecord),
      process_domain w d pid = .emit vm → vm.memory = max d.memActual d.memRss) ∧
    ∀ ld : Libvirt.LDomain, ld.isActive = 1 →
      Libvirt.get_memory ld = .ok (max ld.memActual ld.memRss) := by
  refine ⟨fun d => rfl, ?_, ?_⟩
  · intro w d pid vm h
    rcases (process_domain_emit_iff w d pid vm).mp h with ⟨_, p, _, _, _, hb⟩
    rcases (build_vm_ok_iff w d p vm).mp hb with ⟨ty, net, disk, _, _, _, hvm⟩
    rw [hvm]
    rfl
  · intro ld h
    simp [Libvirt.get_memory, h]

/-- Witness for C7: the emitted record of the example domain reports
`max(actual, rss)`, and the batch variant agrees on an active domain. -/
theorem C7_memory_max_witness :
    exVm.memory = max exDomain.memActual exDomain.memRss ∧
    Libvirt.get_memory Libvirt.exLDomain =
      .ok (max Libvirt.exLDomain.memActual Libvirt.exLDomain.memRss) :=
  ⟨C7_memory_max.2.1 exWorld exDomain (some 42) exVm ex_process_emit,
   C7_memory_max.2.2 Libvirt.exLDomain rfl⟩

/-- **C2 (amended).** The per-domain CPU-load percentage is not derived
from the two local counter snapshots: `get_cpu_load` consults only the
psutil load sampler at the fixed wait (which double-samples internally),
independent of every counter oracle; but it is one single-pid sampler
invocation per processed domain, not one external-tool invocation per
batch; the batch variant sorts the correlated pids by their stable string
key and comma-joins them in that exact order (the bulk invocation itself
is absent from the source and is modelled from the spec). -/
theorem C2_cpu_load_source :
    (∀ (w : World) (p : Int),
      get_cpu_load w p = w.cpuPercent p DATA_RETRIEVAL_WAIT) ∧
    (∀ (w w2 : World) (p : Int), w.cpuPercent = w2.cpuPercent →
      get_cpu_load w p = get_cpu_load w2 p) ∧
    (∀ (w : World) (d : Domain) (p : Int) (vm : VmRecord),
      process_domain w d (some p) = .emit vm →
      vm.cpu_load = w.cpuPercent p DATA_RETRIEVAL_WAIT) ∧
    ∀ (vms : List (String × Unit)),
      List.Sorted Libvirt.keyLe (Libvirt.ordered_items vms) ∧
      Libvirt.bulk_load_invocations vms =
        [String.intercalate "," ((Libvirt.ordered_items vms).map Prod.fst)] := by
  refine ⟨fun w p => rfl, ?_, ?_, ?_⟩
  · intro w w2 p h
    unfold get_cpu_load
    rw [h]
  · intro w d p vm h
    rcases (process_domain_emit_iff w d (some p) vm).mp h with ⟨_, q, hq, _, _, hb⟩
    cases Option.some.inj hq
    rcases (build_vm_ok_iff w d p vm).mp hb with ⟨ty, net, disk, _, _, _, hvm⟩
    rw [hvm]
    rfl
  · intro vms
    exact ⟨Libvirt.ordered_items_sorted vms, rfl⟩

/-- **C2 counterexample.** A cycle with two fully processed domains (both
inside one batch of the default size 20) performs two single-pid
`cpu_percent` sampler invocations — not one bulk invocation per batch as
the claim states. -/
theorem C2_cpu_load_counterexample :
    (cycle_load_invocations exWorld exPids [exDomain, exDomain2]).length = 2 ∧
    (cycle_load_invocations exWorld exPids [exDomain, exDomain2]).length ≠ 1 := by
  have h : (cycle_load_invocations exWorld exPids [exDomain, exDomain2]).length = 2 := by
    simp +decide [cycle_load_invocations, load_sampler_invocations, pid_of,
      dictGet, exWorld, exPids, exDomain, exDomain2]
  exact ⟨h, by rw [h]; omega⟩

/-- Witness for C2: the example record's CPU load is exactly the sampler
oracle's value at (pid 42, fixed wait). -/
theorem C2_cpu_load_source_witness :
    exVm.cpu_load = exWorld.cpuPercent 42 DATA_RETRIEVAL_WAIT :=
  C2_cpu_load_source.2.2.1 exWorld exDomain 42 exVm ex_process_emit

end LibvirtVm

namespace Libvirt

/-- **C8.** For every domain list, the batcher splits it into contiguous
chunks of the fixed batch size (default 20) in the original order: the
concatenation of the chunks equals the input list, every chunk except
possibly the last has exactly 20 elements, and the last (indeed every)
chunk has between 1 and 20 elements. -/
theorem C8_chunker_partition {α : Type _} (seq : List α) :
    (chunker seq BATCH_SIZE).flatten = seq ∧
    (∀ c ∈ (chunker seq BATCH_SIZE).dropLast, c.length = BATCH_SIZE) ∧
    ∀ c ∈ chunker seq BATCH_SIZE, 1 ≤ c.length ∧ c.length ≤ BATCH_SIZE :=
  ⟨chunker_flatten seq, chunker_dropLast_length seq, chunker_mem_length seq⟩

/-- Witness for C8 on a 25-element list: chunks of 20 and 5. -/
theorem C8_chunker_partition_witness :
    (chunker (List.range 25) BATCH_SIZE).flatten = List.range 25 ∧
    ((List.range 25).take 20).length = BATCH_SIZE ∧
    1 ≤ ((List.range 25).drop 20).length ∧
    ((List.range 25).drop 20).length ≤ BATCH_SIZE := by
  refine ⟨(C8_chunker_partition (List.range 25)).1, ?_, ?_⟩
  · refine (C8_chunker_partition (List.range 25)).2.1 _ ?_
    show (List.range 25).take 20 ∈ (chunker (List.range 25) BATCH_SIZE).dropLast
    decide
  · refine (C8_chunker_partition (List.range 25)).2.2 ((List.range 25).drop 20) ?_
    show (List.range 25).drop 20 ∈ chunker (List.range 25) BATCH_SIZE
    decide

end Libvirt

namespace LibvirtVm

/-- The records one cycle prints, in domain order. -/
def emitted_records (w : World) (m : PidMap) (doms : List Domain) : List VmRecord :=
  doms.filterMap (fun d =>
    match process_domain w d (pid_of m d) with
    | .emit vm => some vm
    | .skip _ => none)

theorem cycle_fold_spec (w : World) (m : PidMap) :
    ∀ (doms : List Domain) (recs : List VmRecord) (k : Nat),
      doms.foldl (cycle_step w m) (recs, k) =
        (recs ++ emitted_records w m doms,
          k + (emitted_records w m doms).length) := by
  intro doms
  induction doms with
  | nil =>
    intro recs k
    simp [emitted_records]
  | cons d rest ih =>
    intro recs k
    simp only [List.foldl_cons]
    cases hpd : process_domain w d (pid_of m d) with
    | skip msg =>
      rw [show cycle_step w m (recs, k) d = (recs, k) by simp [cycle_step, hpd]]
      rw [ih recs k]
      simp [emitted_records, hpd]
    | emit vm =>
      rw [show cycle_step w m (recs, k) d = (recs ++ [vm], k + 1) by
        simp [cycle_step, hpd]]
      rw [ih (recs ++ [vm]) (k + 1)]
      refine Prod.ext ?_ ?_
      · simp [emitted_records, hpd]
      · simp [emitted_records, hpd]
        omega

theorem run_cycle_ok (c : Cycle) (m : PidMap)
    (hm : get_pids c.world = .ok m) :
    run_cycle c = .ok { records := emitted_records c.world m c.domains
                        count := (emitted_records c.world m c.domains).length } := by
  have h2 := cycle_fold_spec c.world m c.domains [] 0
  unfold run_cycle
  rw [hm]
  simp [h2]

theorem emitted_records_length (w : World) (m : PidMap) (doms : List Domain) :
    (emitted_records w m doms).length = (emitted_domains w m doms).length := by
  induction doms with
  | nil => rfl
  | cons d rest ih =>
    cases hpd : process_domain w d (pid_of m d) with
    | skip msg =>
      simp [emitted_records, emitted_domains, hpd, PDResult.isEmit] at ih ⊢
      exact ih
    | emit vm =>
      simp [emitted_records, emitted_domains, hpd, PDResult.isEmit] at ih ⊢
      exact ih

/-- **C3.** For every cycle, no inactive domain contributes any emitted
record (it is skipped with a logged warning before any sampling), and the
set of domains with an emitted record is a non-increasing subset through
the pipeline: enumerated ⊇ active ⊇ pid-correlated ⊇ successfully
sampled ⊇ emitted (the emitted set equals the sampled set). -/
theorem C3_pipeline_monotone (w : World) (m : PidMap) (doms : List Domain) :
    (∀ (d : Domain) (pid : Option Int), d.isActive ≠ 1 →
      process_domain w d pid =
        .skip ("Domain " ++ d.name ++ " is inactive. Skipping.")) ∧
    emitted_domains w m doms = stage_sampled w m doms ∧
    (stage_sampled w m doms).Sublist (stage_correlated m doms) ∧
    (stage_correlated m doms).Sublist (stage_active doms) ∧
    (stage_active doms).Sublist doms := by
  refine ⟨?_, ?_, List.filter_sublist _, List.filter_sublist _, List.filter_sublist _⟩
  · intro d pid h
    unfold process_domain
    rw [if_pos h]
  · unfold emitted_domains stage_sampled stage_correlated stage_active
    rw [List.filter_filter, List.filter_filter]
    refine List.filter_congr ?_
    intro d _
    rw [isEmit_eq]
    cases hA : d.isActive == 1 <;> cases hC : pidTruthy (pid_of m d) <;>
      cases hS : sampling_ok w d (pid_of m d) <;> simp [hA, hC, hS]

/-- An inactive example domain. -/
def exInactiveDomain : Domain :=
  { exDomain with
    name := "one-99"
    uuid := "99999999-bbbb-cccc-dddd-eeeeeeeeeeee"
    isActive := 0 }

/-- Witness for C3: an inactive domain is skipped with the warning, and
on a concrete two-domain cycle the emitted set equals the sampled set. -/
theorem C3_pipeline_monotone_witness :
    process_domain exWorld exInactiveDomain (some 42) =
      .skip ("Domain " ++ exInactiveDomain.name ++ " is inactive. Skipping.") ∧
    emitted_domains exWorld exPids [exDomain, exInactiveDomain] =
      stage_sampled exWorld exPids [exDomain, exInactiveDomain] :=
  ⟨(C3_pipeline_monotone exWorld exPids []).1 exInactiveDomain (some 42) (by decide),
   (C3_pipeline_monotone exWorld exPids [exDomain, exInactiveDomain]).2.1⟩

/-- A world whose process listing contains no qemu line: pids resolve to
nothing. -/
def exWorldNoPid : World :=
  { exWorld with psOutput := "root 1 /sbin/init".toList }

/-- A cycle with one running domain whose pid cannot be resolved. -/
def exCycleNoPid : Cycle :=
  { world := exWorldNoPid, domains := [exDomain] }

/-- **C9.** The `libvirt.vm.count` metric emitted once per cycle equals
the number of domains for which processing fully succeeded and records
were emitted that cycle; it can be strictly less than the number of
running VMs (here: one running domain with an unresolved pid gives
count 0). -/
theorem C9_vm_count :
    (∀ (c : Cycle) (m : PidMap),
      get_pids c.world = .ok m →
      run_cycle c = .ok { records := emitted_records c.world m c.domains
                          count := (emitted_domains c.world m c.domains).length }) ∧
    run_cycle exCycleNoPid = .ok { records := [], count := 0 } ∧
    (stage_active exCycleNoPid.domains).length = 1 := by
  refine ⟨?_, ?_, ?_⟩
  · intro c m hm
    rw [run_cycle_ok c m hm, emitted_records_length]
  · rfl
  · rfl

/-- Witness for C9: the two-domain example cycle reports count 2. -/
theorem C9_vm_count_witness :
    run_cycle { world := exWorld, domains := [exDomain, exDomain2] } =
      .ok { records := emitted_records exWorld exPids [exDomain, exDomain2]
            count := (emitted_domains exWorld exPids [exDomain, exDomain2]).length } :=
  C9_vm_count.1 { world := exWorld, domains := [exDomain, exDomain2] } exPids rfl

end LibvirtVm

namespace LibvirtVm

/-- A missing interface device name, or a failed stats read for a listed
device, makes the network accumulation loop fail. -/
theorem net_loop_error (stats : String → Option (ℚ × ℚ)) (dname : String) :
    ∀ (ifaces : List Iface) (netrx nettx : ℚ),
      (∃ i ∈ ifaces, i.dev = none ∨ ∃ dv, i.dev = some dv ∧ stats dv = none) →
      ∃ e, net_loop stats dname ifaces netrx nettx = .error e := by
  intro ifaces
  induction ifaces with
  | nil =>
    intro _ _ h
    simp at h
  | cons i rest ih =>
    intro netrx nettx h
    cases hidev : i.dev with
    | none =>
      exact ⟨"Cannot read interface name for domain " ++ dname ++ ". Skipping",
        by simp [net_loop, hidev]⟩
    | some dv =>
      cases hst : stats dv with
      | none =>
        exact ⟨"Cannot read interface statisticsfor domain " ++ dname ++ ". Skipping",
          by simp [net_loop, hidev, hst]⟩
      | some rt =>
        obtain ⟨rx, tx⟩ := rt
        rcases h with ⟨j, hj, hbad⟩
        rcases List.mem_cons.mp hj with rfl | hjrest
        · exfalso
          rcases hbad with hnone | ⟨dv2, hdv2, hst2⟩
          · rw [hidev] at hnone
            exact Option.some_ne_none _ hnone
          · rw [hidev] at hdv2
            cases Option.some.inj hdv2
            rw [hst] at hst2
            exact Option.some_ne_none _ hst2
        · rcases ih (netrx + rx) (nettx + tx) ⟨j, hjrest, hbad⟩ with ⟨e, he⟩
          exact ⟨e, by simp [net_loop, hidev, hst]; exact he⟩

/-- A missing disk device name, or a failed stats read for a listed
device, makes the disk accumulation loop fail. -/
theorem disk_loop_error (stats : String → Option BlockStats) (dname : String) :
    ∀ (disks : List Disk) (rr wr rb wb : ℚ),
      (∃ dk ∈ disks, dk.dev = none ∨ ∃ dv, dk.dev = some dv ∧ stats dv = none) →
      ∃ e, disk_loop stats dname disks rr wr rb wb = .error e := by
  intro disks
  induction disks with
  | nil =>
    intro _ _ _ _ h
    simp at h
  | cons dk rest ih =>
    intro rr wr rb wb h
    cases hddev : dk.dev with
    | none =>
      exact ⟨"Cannot read disk name for domain " ++ dname ++ ". Skipping",
        by simp [disk_loop, hddev]⟩
    | some dv =>
      cases hst : stats dv with
      | none =>
        exact ⟨"Cannot read interface statisticsfor domain " ++ dname ++ ". Skipping",
          by simp [disk_loop, hddev, hst]⟩
      | some b =>
        rcases h with ⟨j, hj, hbad⟩
        rcases List.mem_cons.mp hj with rfl | hjrest
        · exfalso
          rcases hbad with hnone | ⟨dv2, hdv2, hst2⟩
          · rw [hddev] at hnone
            exact Option.some_ne_none _ hnone
          · rw [hddev] at hdv2
            cases Option.some.inj hdv2
            rw [hst] at hst2
            exact Option.some_ne_none _ hst2
        · rcases ih (rr + b.s0) (wr + b.s1) (rb + b.s2) (wb + b.s3)
            ⟨j, hjrest, hbad⟩ with ⟨e, he⟩
          exact ⟨e, by simp [disk_loop, hddev, hst]; exact he⟩

/-- If `build_vm` succeeds then all three descriptor/counter getters
succeeded. -/
theorem build_ok_parts (w : World) (d : Domain) (p : Int)
    (h : exceptOk (build_vm w d p) = true) :
    exceptOk (get_type d) = true ∧ exceptOk (get_network_traffic d) = true ∧
      exceptOk (get_disk_io d) = true := by
  cases hb : build_vm w d p with
  | error e =>
    rw [hb] at h
    simp [exceptOk] at h
  | ok vm =>
    rcases (build_vm_ok_iff w d p vm).mp hb with ⟨ty, net, disk, h1, h2, h3, _⟩
    simp [h1, h2, h3, exceptOk]

/-- If `build_vm` fails for every pid, the domain can only be skipped. -/
theorem process_skip_of_build_err (w : World) (d : Domain) (pid : Option Int)
    (hb : ∀ p : Int, exceptOk (build_vm w d p) = false) :
    ∃ msg, process_domain w d pid = .skip msg := by
  cases hpd : process_domain w d pid with
  | skip msg => exact ⟨msg, rfl⟩
  | emit vm =>
    exfalso
    rcases (process_domain_emit_iff w d pid vm).mp hpd with ⟨_, p, _, _, _, hbe⟩
    have := hb p
    rw [hbe] at this
    simp [exceptOk] at this

/-- **C5.** If, for some domain, a required descriptor field is missing
(interface device name, disk device name, domain type) or a per-domain
counter read fails, that domain emits zero output lines for the cycle
(`process_domain` returns a skip carrying the logged warning, never a
partial record), and every other domain in the same cycle is still
processed and emitted independently. -/
theorem C5_domain_scoped_errors (w : World) (m : PidMap) (d : Domain)
    (pid : Option Int) :
    ((∃ i ∈ d.xml.interfaces, i.dev = none) →
      ∃ msg, process_domain w d pid = .skip msg) ∧
    ((∃ dk ∈ d.xml.disks, dk.dev = none) →
      ∃ msg, process_domain w d pid = .skip msg) ∧
    (d.xml.domType = none → ∃ msg, process_domain w d pid = .skip msg) ∧
    ((∃ i ∈ d.xml.interfaces, ∃ dv, i.dev = some dv ∧ d.ifaceStats 0 dv = none) →
      ∃ msg, process_domain w d pid = .skip msg) ∧
    ((∃ dk ∈ d.xml.disks, ∃ dv, dk.dev = some dv ∧ d.blockStats 0 dv = none) →
      ∃ msg, process_domain w d pid = .skip msg) ∧
    ∀ l1 l2 : List Domain,
      emitted_records w m (l1 ++ d :: l2) =
        emitted_records w m l1 ++ emitted_records w m [d] ++
          emitted_records w m l2 := by
  have hnet : ∀ hbad : ∃ i ∈ d.xml.interfaces,
      i.dev = none ∨ ∃ dv, i.dev = some dv ∧ d.ifaceStats 0 dv = none,
      ∀ p : Int, exceptOk (build_vm w d p) = false := by
    intro hbad p
    rcases net_loop_error (d.ifaceStats 0) d.name d.xml.interfaces 0 0 hbad
      with ⟨e, he⟩
    by_contra hok
    rcases build_ok_parts w d p (by simpa using hok) with ⟨_, h2, _⟩
    rw [show get_network_traffic d = .error e by
      simp [get_network_traffic, get_network_data, he]] at h2
    simp [exceptOk] at h2
  have hdisk : ∀ hbad : ∃ dk ∈ d.xml.disks,
      dk.dev = none ∨ ∃ dv, dk.dev = some dv ∧ d.blockStats 0 dv = none,
      ∀ p : Int, exceptOk (build_vm w d p) = false := by
    intro hbad p
    rcases disk_loop_error (d.blockStats 0) d.name d.xml.disks 0 0 0 0 hbad
      with ⟨e, he⟩
    by_contra hok
    rcases build_ok_parts w d p (by simpa using hok) with ⟨_, _, h3⟩
    rw [show get_disk_io d = .error e by
      simp [get_disk_io, get_disk_data, he]] at h3
    simp [exceptOk] at h3
  refine ⟨?_, ?_, ?_, ?_, ?_, ?_⟩
  · intro hbad
    refine process_skip_of_build_err w d pid (hnet ?_)
    rcases hbad with ⟨i, hi, hdev⟩
    exact ⟨i, hi, Or.inl hdev⟩
  · intro hbad
    refine process_skip_of_build_err w d pid (hdisk ?_)
    rcases hbad with ⟨dk, hdk, hdev⟩
    exact ⟨dk, hdk, Or.inl hdev⟩
  · intro hty
    refine process_skip_of_build_err w d pid ?_
    intro p
    cases hb : build_vm w d p with
    | error e => simp [exceptOk]
    | ok vm =>
      exfalso
      rcases (build_vm_ok_iff w d p vm).mp hb with ⟨ty, _, _, h1, _, _, _⟩
      rw [show get_type d = .error ("Cannot read type for domain " ++ d.name
        ++ ". Skipping") by simp [get_type, hty]] at h1
      exact Except.noConfusion h1
  · intro hbad
    refine process_skip_of_build_err w d pid (hnet ?_)
    rcases hbad with ⟨i, hi, dv, hdv, hst⟩
    exact ⟨i, hi, Or.inr ⟨dv, hdv, hst⟩⟩
  · intro hbad
    refine process_skip_of_build_err w d pid (hdisk ?_)
    rcases hbad with ⟨dk, hdk, dv, hdv, hst⟩
    exact ⟨dk, hdk, Or.inr ⟨dv, hdv, hst⟩⟩
  · intro l1 l2
    simp only [emitted_records, List.filterMap_append]
    cases hpd : process_domain w d (pid_of m d) <;>
      simp [List.filterMap_cons, hpd]

/-- An example domain whose descriptor lacks the disk device name
(Scenario 2 of the spec). -/
def exBadDiskDomain : Domain :=
  { exDomain with
    name := "one-55"
    uuid := "55555555-bbbb-cccc-dddd-eeeeeeeeeeee"
    xml := { interfaces := [⟨some "eth0"⟩, ⟨some "eth1"⟩]
             disks := [⟨none⟩]
             domType := some "kvm" } }

/-- Witness for C5: the bad-disk domain is skipped while the cycle's
record list still decomposes around it. -/
theorem C5_domain_scoped_errors_witness :
    (∃ msg, process_domain exWorld exBadDiskDomain (some 42) = .skip msg) ∧
    emitted_records exWorld exPids ([exDomain] ++ exBadDiskDomain :: [exDomain2]) =
      emitted_records exWorld exPids [exDomain] ++
        emitted_records exWorld exPids [exBadDiskDomain] ++
        emitted_records exWorld exPids [exDomain2] :=
  ⟨(C5_domain_scoped_errors exWorld exPids exBadDiskDomain (some 42)).2.1
      ⟨⟨none⟩, List.mem_cons_self _ _, rfl⟩,
   (C5_domain_scoped_errors exWorld exPids exBadDiskDomain (some 42)).2.2.2.2.2
      [exDomain] [exDomain2]⟩

end LibvirtVm

namespace LibvirtVm

/-- Lookup in a dict after replacing the entries with the assigned key. -/
theorem dictGet_map_self : ∀ (m : PidMap) (k : String) (v : Int),
    m.any (fun p => p.1 == k) = true →
    dictGet (m.map (fun p => if p.1 == k then (k, v) else p)) k = some v := by
  intro m k v hany
  induction m with
  | nil => simp at hany
  | cons a rest ih =>
    rw [List.map_cons]
    by_cases ha : (a.1 == k) = true
    · simp [dictGet, List.find?_cons, ha]
    · rw [List.any_cons] at hany
      have hrest := (Bool.or_eq_true _ _).mp hany
      rcases hrest with h | h
      · exact absurd h ha
      · have := ih h
        simp only [dictGet, List.find?_cons] at this ⊢
        rw [if_neg (by simpa using ha)]
        simp only [Bool.not_eq_true] at ha
        rw [ha]
        exact this

theorem dictGet_insert_self (m : PidMap) (k : String) (v : Int) :
    dictGet (dictInsert m k v) k = some v := by
  unfold dictInsert
  by_cases hany : m.any (fun p => p.1 == k) = true
  · rw [if_pos hany]
    exact dictGet_map_self m k v hany
  · rw [if_neg hany]
    have hnone : m.find? (fun p => p.1 == k) = none := by
      rw [List.find?_eq_none]
      intro a ha
      intro hak
      exact hany (List.any_eq_true.mpr ⟨a, ha, hak⟩)
    unfold dictGet
    rw [List.find?_append, hnone]
    simp [List.find?_cons]


theorem dictGet_map_other : ∀ (m : PidMap) (k k2 : String) (v : Int),
    k2 ≠ k →
    dictGet (m.map (fun p => if p.1 == k then (k, v) else p)) k2 = dictGet m k2 := by
  intro m k k2 v hne
  induction m with
  | nil => rfl
  | cons a rest ih =>
    rw [List.map_cons]
    simp only [dictGet, List.find?_cons]
    have h1 : (k == k2) = false := by
      simp only [beq_eq_false_iff_ne, ne_eq]
      exact fun hh => hne hh.symm
    by_cases ha : (a.1 == k) = true
    · rw [if_pos ha]
      have h2 : (a.1 == k2) = false := by
        rw [eq_of_beq ha]
        exact h1
      rw [h1, h2]
      exact ih
    · rw [if_neg ha]
      cases ha2 : (a.1 == k2)
      · simp only [ha2]
        exact ih
      · simp [ha2]

theorem dictGet_insert_other (m : PidMap) (k k2 : String) (v : Int)
    (hne : k2 ≠ k) :
    dictGet (dictInsert m k v) k2 = dictGet m k2 := by
  unfold dictInsert
  by_cases hany : m.any (fun p => p.1 == k) = true
  · rw [if_pos hany]
    exact dictGet_map_other m k k2 v hne
  · rw [if_neg hany]
    unfold dictGet
    rw [List.find?_append]
    have h1 : [(k, v)].find? (fun p => p.1 == k2) = none := by
      simp only [List.find?_cons, List.find?_nil]
      have : (k == k2) = false := by
        simp only [beq_eq_false_iff_ne, ne_eq]
        exact fun hh => hne hh.symm
      rw [this]
    rw [h1]
    cases m.find? (fun p => p.1 == k2) <;> rfl

/-- What one ps line contributes: `none` when the UUID pattern does not
match, otherwise the uuid group together with the (possibly failed)
integer parse of the extracted pid token. -/
def line_entry (line : List Char) : Option (String × Option Int) :=
  match uuidSearch (pyStripL line) with
  | some g => some (String.mk (pyStripL g),
      pyInt ((pyStripL line).takeWhile (fun c => c ≠ ' ')))
  | none => none

theorem get_pids_fold_cons (line : List Char) (rest : List (List Char))
    (acc : PidMap) :
    get_pids_fold (line :: rest) acc =
      match line_entry line with
      | none => get_pids_fold rest acc
      | some (u, some n) => get_pids_fold rest (dictInsert acc u n)
      | some (_, none) =>
        .error ("'" ++ String.mk ((pyStripL line).takeWhile (fun c => c ≠ ' '))
          ++ "' is not a valid PIDnumber") := by
  show (match uuidSearch (pyStripL line) with
    | some g =>
      match pyInt ((pyStripL line).takeWhile (fun c => c ≠ ' ')) with
      | some n => get_pids_fold rest (dictInsert acc (String.mk (pyStripL g)) n)
      | none =>
        .error ("'" ++ String.mk ((pyStripL line).takeWhile (fun c => c ≠ ' '))
          ++ "' is not a valid PIDnumber")
    | none => get_pids_fold rest acc) = _
  unfold line_entry
  cases uuidSearch (pyStripL line) with
  | none => rfl
  | some g =>
    cases pyInt ((pyStripL line).takeWhile (fun c => c ≠ ' ')) with
    | none => rfl
    | some n => rfl

theorem get_pids_fold_append (l1 l2 : List (List Char)) (acc : PidMap) :
    get_pids_fold (l1 ++ l2) acc =
      match get_pids_fold l1 acc with
      | .ok m1 => get_pids_fold l2 m1
      | .error e => .error e := by
  induction l1 generalizing acc with
  | nil => rfl
  | cons line rest ih =>
    rw [List.cons_append, get_pids_fold_cons, get_pids_fold_cons]
    cases line_entry line with
    | none => exact ih acc
    | some e =>
      obtain ⟨u, op⟩ := e
      cases op with
      | none => rfl
      | some n => exact ih (dictInsert acc u n)

theorem get_pids_fold_no_match (u : String) :
    ∀ (lines : List (List Char)) (acc m : PidMap),
      (∀ l ∈ lines, ∀ e, line_entry l = some e → e.1 ≠ u) →
      get_pids_fold lines acc = .ok m →
      dictGet m u = dictGet acc u := by
  intro lines
  induction lines with
  | nil =>
    intro acc m _ hok
    cases hok
    rfl
  | cons line rest ih =>
    intro acc m hno hok
    rw [get_pids_fold_cons] at hok
    cases hle : line_entry line with
    | none =>
      rw [hle] at hok
      exact ih acc m (fun l hl => hno l (List.mem_cons_of_mem _ hl)) hok
    | some e =>
      obtain ⟨u2, op⟩ := e
      cases op with
      | none =>
        rw [hle] at hok
        exact Except.noConfusion hok
      | some n =>
        rw [hle] at hok
        have hne : u2 ≠ u := hno line (List.mem_cons_self _ _) (u2, some n) hle
        rw [ih (dictInsert acc u2 n) m
          (fun l hl => hno l (List.mem_cons_of_mem _ hl)) hok]
        exact dictGet_insert_other acc u2 u n (fun hh => hne hh.symm)

/-- **C10.** In pid correlation, if two or more lines of the
process-listing output contain the same UUID, the resulting UUID-to-pid
mapping keeps the pid of the last matching line: earlier matches
(anywhere in `pre`) are silently overwritten — the fold succeeds with no
warning or error and the lookup returns the last matching line's pid. -/
theorem C10_last_match_wins (pre post : List (List Char)) (line : List Char)
    (u : String) (p : Int) (m : PidMap)
    (hok : get_pids_fold (pre ++ line :: post) [] = .ok m)
    (hline : line_entry line = some (u, some p))
    (hpost : ∀ l ∈ post, ∀ e, line_entry l = some e → e.1 ≠ u) :
    dictGet m u = some p := by
  rw [get_pids_fold_append] at hok
  cases hpre : get_pids_fold pre [] with
  | error e =>
    simp only [hpre] at hok
    exact Except.noConfusion hok
  | ok m1 =>
    simp only [hpre] at hok
    rw [get_pids_fold_cons, hline] at hok
    rw [get_pids_fold_no_match u post (dictInsert m1 u p) m hpost hok]
    exact dictGet_insert_self m1 u p

/-- Two ps lines carrying the same UUID with different pids. -/
def exPsLine1 : List Char :=
  "  12 qemu -uuid aaaaaaaa-bbbb-cccc-dddd-eeeeeeeeeeee".toList

def exPsLine2 : List Char :=
  "34 qemu-kvm -uuid aaaaaaaa-bbbb-cccc-dddd-eeeeeeeeeeee restarted".toList

/-- Witness for C10: with pid 12 then pid 34 under the same UUID, the map
holds 34. -/
theorem C10_last_match_wins_witness :
    get_pids_fold ([exPsLine1] ++ exPsLine2 :: []) [] =
      .ok [("aaaaaaaa-bbbb-cccc-dddd-eeeeeeeeeeee", 34)] ∧
    dictGet [("aaaaaaaa-bbbb-cccc-dddd-eeeeeeeeeeee", 34)]
      "aaaaaaaa-bbbb-cccc-dddd-eeeeeeeeeeee" = some 34 := by
  refine ⟨rfl, ?_⟩
  exact C10_last_match_wins [exPsLine1] [] exPsLine2
    "aaaaaaaa-bbbb-cccc-dddd-eeeeeeeeeeee" 34
    [("aaaaaaaa-bbbb-cccc-dddd-eeeeeeeeeeee", 34)]
    rfl (by decide) (by simp)

end LibvirtVm

namespace LibvirtVm

/-- The pid token the source extracts from a matched line:
`line.strip().split(' ', 1)[0]` — the prefix up to the first space
character. -/
def code_token (line : List Char) : List Char :=
  (pyStripL line).takeWhile (fun c => c ≠ ' ')

/-- Modelled from the spec: "the line's leading whitespace-delimited
token is the pid" — the first maximal run of non-whitespace characters. -/
def leading_ws_token (line : List Char) : List Char :=
  (line.dropWhile pyIsSpace).takeWhile (fun c => ¬ pyIsSpace c)

/-- Modelled from the spec: the Process Correlator of §4.3 — scan each
line for the fixed-format UUID pattern and take the line's leading
whitespace-delimited token as the pid.  Identical to `get_pids_fold`
except for the token rule. -/
def spec_correlate_fold : List (List Char) → PidMap → Except String PidMap
  | [], pids => .ok pids
  | line :: rest, pids =>
    match uuidSearch (pyStripL line) with
    | some g =>
      match pyInt (leading_ws_token line) with
      | some n =>
        spec_correlate_fold rest (dictInsert pids (String.mk (pyStripL g)) n)
      | none =>
        .error ("'" ++ String.mk (leading_ws_token line)
          ++ "' is not a valid PIDnumber")
    | none => spec_correlate_fold rest pids

/-- The stripped line's space-delimited prefix equals its
whitespace-delimited leading token whenever the prefix contains no
non-space whitespace. -/
theorem fold_eq_spec_fold :
    ∀ (lines : List (List Char)) (acc : PidMap),
      (∀ l ∈ lines, code_token l = leading_ws_token l) →
      get_pids_fold lines acc = spec_correlate_fold lines acc := by
  intro lines
  induction lines with
  | nil =>
    intro acc _
    rfl
  | cons line rest ih =>
    intro acc h
    have hl : code_token line = leading_ws_token line :=
      h line (List.mem_cons_self _ _)
    have hrest := fun l hl2 => h l (List.mem_cons_of_mem _ hl2)
    show (match uuidSearch (pyStripL line) with
      | some g =>
        match pyInt ((pyStripL line).takeWhile (fun c => c ≠ ' ')) with
        | some n => get_pids_fold rest (dictInsert acc (String.mk (pyStripL g)) n)
        | none =>
          .error ("'" ++ String.mk ((pyStripL line).takeWhile (fun c => c ≠ ' '))
            ++ "' is not a valid PIDnumber")
      | none => get_pids_fold rest acc) = spec_correlate_fold (line :: rest) acc
    unfold code_token at hl
    rw [hl]
    unfold spec_correlate_fold
    cases uuidSearch (pyStripL line) with
    | none => exact ih acc hrest
    | some g =>
      cases pyInt (leading_ws_token line) with
      | none => rfl
      | some n => exact ih (dictInsert acc (String.mk (pyStripL g)) n) hrest

/-- **C4 (amended).** The process correlator maps domain UUIDs to pids by
scanning each (stripped) line of the process-listing output for the
fixed-format UUID pattern; for a matching line the pid is the line's
leading token up to the first space character, which coincides with the
leading whitespace-delimited token exactly when that token contains no
other whitespace (as in real `ps` output); a domain whose UUID matches no
line is dropped from the cycle with a logged warning, not an error. -/
theorem C4_correlator (lines : List (List Char)) (acc : PidMap)
    (h : ∀ l ∈ lines, code_token l = leading_ws_token l) :
    get_pids_fold lines acc = spec_correlate_fold lines acc ∧
    ∀ (w : World) (d : Domain), d.isActive = 1 →
      process_domain w d none =
        .skip ("Cannot find PID for domain " ++ d.name ++ ". Skipping.") := by
  refine ⟨fold_eq_spec_fold lines acc h, ?_⟩
  intro w d hd
  unfold process_domain
  rw [if_neg (by simp [hd])]

/-- A matched line whose pid column is tab-separated. -/
def exTabLine : List Char :=
  "7\t-uuid aaaaaaaa-aaaa-aaaa-aaaa-aaaaaaaaaaaa".toList

/-- **C4 counterexample.** On `exTabLine` the whitespace-delimited leading
token is "7" (a valid pid), but the code takes the space-delimited token
(which still contains the tab and the following word), fails to parse it,
and raises the batch-wide fatal error instead of taking "7" as the pid. -/
theorem C4_correlator_counterexample :
    leading_ws_token exTabLine = ['7'] ∧
    pyInt (leading_ws_token exTabLine) = some 7 ∧
    code_token exTabLine ≠ leading_ws_token exTabLine ∧
    get_pids_fold [exTabLine] [] =
      .error ("'" ++ String.mk (code_token exTabLine)
        ++ "' is not a valid PIDnumber") ∧
    spec_correlate_fold [exTabLine] [] =
      .ok [("aaaaaaaa-aaaa-aaaa-aaaa-aaaaaaaaaaaa", 7)] :=
  ⟨by decide, by decide, by decide, rfl, rfl⟩

/-- Witness for C4: on a space-delimited ps line the code and the spec
correlator agree, and an active domain with no UUID match is skipped with
the warning. -/
theorem C4_correlator_witness :
    get_pids_fold [exPsLine1] [] = spec_correlate_fold [exPsLine1] [] ∧
    process_domain exWorld exDomain none =
      .skip ("Cannot find PID for domain " ++ exDomain.name ++ ". Skipping.") :=
  ⟨(C4_correlator [exPsLine1] [] (by decide)).1,
   (C4_correlator [] [] (by simp)).2 exWorld exDomain rfl⟩

end LibvirtVm

namespace LibvirtVm

/-- A line that matches the UUID pattern but whose pid token fails the
integer parse makes the whole `get_pids` fold fail. -/
theorem get_pids_fold_bad_token :
    ∀ (lines : List (List Char)) (acc : PidMap),
      (∃ l ∈ lines, ∃ u, line_entry l = some (u, none)) →
      ∃ e, get_pids_fold lines acc = .error e := by
  intro lines
  induction lines with
  | nil =>
    intro acc h
    simp at h
  | cons line rest ih =>
    intro acc h
    rw [get_pids_fold_cons]
    cases hle : line_entry line with
    | none =>
      rcases h with ⟨l, hl, u, he⟩
      rcases List.mem_cons.mp hl with rfl | hlr
      · rw [hle] at he
        exact Option.noConfusion he
      · exact ih acc ⟨l, hlr, u, he⟩
    | some e2 =>
      obtain ⟨u2, op⟩ := e2
      cases op with
      | none => exact ⟨_, rfl⟩
      | some n =>
        rcases h with ⟨l, hl, u, he⟩
        rcases List.mem_cons.mp hl with rfl | hlr
        · rw [hle] at he
          simp at he
        · exact ih (dictInsert acc u2 n) ⟨l, hlr, u, he⟩

/-- If every cycle of a prefix succeeds and then one cycle's `get_pids`
fails, the main loop stops with the do-not-restart code, keeping the
prefix's output. -/
theorem main_loop_append_err :
    ∀ (pre : List Cycle) (acc outs : List CycleOutput),
      main_loop pre acc = (outs, none) →
      ∀ (c : Cycle) (post : List Cycle) (e : String), run_cycle c = .error e →
      main_loop (pre ++ c :: post) acc = (outs, some ERROR_CODE_DONT_RETRY) := by
  intro pre
  induction pre with
  | nil =>
    intro acc outs h c post e he
    have hacc : acc = outs := by
      simpa [main_loop] using h
    subst hacc
    simp [main_loop, he]
  | cons x rest ih =>
    intro acc outs h c post e he
    rw [List.cons_append]
    unfold main_loop at h ⊢
    cases hx : run_cycle x with
    | error e2 =>
      simp only [hx] at h
      exact absurd (Prod.ext_iff.mp h).2 (by simp)
    | ok out =>
      simp only [hx] at h ⊢
      exact ih (acc ++ [out]) outs h c post e he

/-- **C6 (amended).** On every permanent failure — a missing required
module dependency, a failed initial hypervisor connection, or an
unparsable pid token on a matched line of the process listing — the
process stops and returns the fixed sentinel exit code 13 (do not
restart); on initial connection failure it exits before printing any
metric line (no cycle output at all).  ps stderr output, however, is not
a failure: the child is created with stdout piped only, `communicate()`
always returns `None` for `err`, the `if err` branch is dead code, and
pid reading depends only on the captured stdout. -/
theorem C6_fatal_exit :
    ERROR_CODE_DONT_RETRY = 13 ∧
    (∀ (l b p conn : Bool) (cycles : List Cycle), (l && b && p) = false →
      libvirt_vm_main l b p conn cycles = ([], some ERROR_CODE_DONT_RETRY)) ∧
    (∀ cycles : List Cycle,
      libvirt_vm_main true true true false cycles =
        ([], some ERROR_CODE_DONT_RETRY)) ∧
    (∀ w w2 : World, w.psOutput = w2.psOutput → get_pids w = get_pids w2) ∧
    (∀ (w : World) (doms : List Domain),
      (∃ l ∈ splitNl (pyStripL w.psOutput), ∃ u, line_entry l = some (u, none)) →
      ∃ e, run_cycle { world := w, domains := doms } = .error e) ∧
    ∀ (pre : List Cycle) (c : Cycle) (post : List Cycle)
      (outs : List CycleOutput) (e : String),
      main_loop pre [] = (outs, none) → run_cycle c = .error e →
      libvirt_vm_main true true true true (pre ++ c :: post) =
        (outs, some ERROR_CODE_DONT_RETRY) := by
  refine ⟨rfl, ?_, ?_, ?_, ?_, ?_⟩
  · intro l b p conn cycles h
    unfold libvirt_vm_main
    rw [if_pos (by simp [h])]
  · intro cycles
    rfl
  · intro w w2 h
    unfold get_pids ps_communicate
    rw [h]
  · intro w doms hbad
    rcases get_pids_fold_bad_token (splitNl (pyStripL w.psOutput)) [] hbad
      with ⟨e, he⟩
    have hg : get_pids w = .error e := he
    exact ⟨e, by unfold run_cycle; simp only [hg]⟩
  · intro pre c post outs e hpre he
    unfold libvirt_vm_main
    rw [if_neg (by simp), if_neg (by simp)]
    exact main_loop_append_err pre [] outs hpre c post e he

/-- A world whose ps invocation writes to its (uncaptured) stderr. -/
def exWorldStderr : World :=
  { exWorld with psStderr := "boom".toList }

/-- A world whose ps output is a matched line with an unparsable pid
token. -/
def exWorldBadTok : World :=
  { exWorld with psOutput := exTabLine }

/-- **C6 counterexample.** ps stderr output does not stop the program:
with ps writing "boom" to stderr, the cycle still completes and the main
loop continues with no exit code.  stderr is never captured (the child
pipes stdout only), so the stderr-triggered fatal exit the claim
describes cannot occur. -/
theorem C6_fatal_exit_counterexample :
    exWorldStderr.psStderr = "boom".toList ∧
    run_cycle { world := exWorldStderr, domains := [] } =
      .ok { records := [], count := 0 } ∧
    libvirt_vm_main true true true true
        [{ world := exWorldStderr, domains := [] }] =
      ([{ records := [], count := 0 }], none) :=
  ⟨rfl, rfl, rfl⟩

/-- Witness for C6: each fatal path at a concrete input, plus stderr
independence of pid reading. -/
theorem C6_fatal_exit_witness :
    libvirt_vm_main false true true true [] = ([], some ERROR_CODE_DONT_RETRY) ∧
    libvirt_vm_main true true true false [] = ([], some ERROR_CODE_DONT_RETRY) ∧
    get_pids exWorldStderr = get_pids exWorld ∧
    (∃ e, run_cycle { world := exWorldBadTok, domains := [exDomain] } = .error e) ∧
    libvirt_vm_main true true true true
        [{ world := exWorldBadTok, domains := [exDomain] }] =
      ([], some ERROR_CODE_DONT_RETRY) :=
  ⟨C6_fatal_exit.2.1 false true true true [] rfl,
   C6_fatal_exit.2.2.1 [],
   C6_fatal_exit.2.2.2.1 exWorldStderr exWorld rfl,
   C6_fatal_exit.2.2.2.2.1 exWorldBadTok [exDomain]
     ⟨exTabLine, by decide, "aaaaaaaa-aaaa-aaaa-aaaa-aaaaaaaaaaaa", by decide⟩,
   C6_fatal_exit.2.2.2.2.2 [] { world := exWorldBadTok, domains := [exDomain] }
     [] [] ("'" ++ String.mk (code_token exTabLine) ++ "' is not a valid PIDnumber")
     rfl rfl⟩

end LibvirtVm
